import Mathlib

/-!
A shallow embedding of the quantization-and-codegen pipeline in
`dev_sdk/read_h5.py` (functions `float_to_fixed`, `load_h5_model`,
`convert_weights_to_fixed`, `generate_move_code`), with proofs about the
embedded definitions.

Modelling conventions:
* A Python float is `PyFloat`: either a finite value given by an IEEE-style
  sign bit and a non-negative rational magnitude (the signed zeros are
  `finite false 0` and `finite true 0`), or a signed infinity, or NaN.
  Arithmetic on finite values is idealised as exact rational arithmetic.
* Python's built-in `round` (round-half-to-even, returning an unbounded
  `int`) is `pyRound` on rationals; applied to a non-finite float it raises
  (`ValueError` for NaN, `OverflowError` for an infinity), modelled by
  `PyFloat.pyRoundExc` returning `Except`.
* Python exceptions are the error type `PyErr`; a `for` loop that appends one
  result per element and lets the first exception propagate is `mapExcept`.
* A numpy array is `NpArray`, rank 1 or rank 2 (a list of rows); `flatten` is
  numpy's C-order (row-major) flatten.
-/

/- The Batteries rational-arithmetic primitives are `@[irreducible]`, which
blocks `decide` on concrete rational computations; restore the default
reducibility for this file so that concrete runs of the embedded functions
evaluate. -/
set_option allowUnsafeReducibility true
attribute [local semireducible] Rat.mul Rat.add Rat.sub Rat.div Rat.inv

deriving instance DecidableEq for Except

/-- Python exceptions that the embedded fragment can raise. -/
inductive PyErr where
  /-- Python `round(nan)` raises `ValueError` (cannot convert float NaN to integer). -/
  | valueErrorNanToInt
  /-- Python `round(inf)` raises `OverflowError` (cannot convert float infinity to integer). -/
  | overflowErrorInfToInt
  /-- Python tuple unpacking of a list whose length is not exactly two raises `ValueError`. -/
  | valueErrorUnpack
  /-- Python indexing past the end of a list raises `IndexError`. -/
  | indexErrorShape
  deriving DecidableEq, Repr

/-- Modelled from the spec: the spec's error taxonomy (its error-handling
section) names `InvalidValue` as the error kind covering non-finite input to
the codec; no type of that name exists in the source, where the kind shows up
as the `ValueError` / `OverflowError` that Python's `round` raises on
NaN / infinity. -/
def PyErr.isInvalidValue : PyErr → Bool
  | .valueErrorNanToInt => true
  | .overflowErrorInfToInt => true
  | _ => false

/-- A Python float: finite values carry an IEEE-style sign bit and a
non-negative magnitude (so `finite true 0` is negative zero), plus signed
infinities and NaN. Finite arithmetic is idealised as exact. -/
inductive PyFloat where
  | finite (sign : Bool) (mag : ℚ)
  | inf (sign : Bool)
  | nan
  deriving DecidableEq, Repr

/-- The rational value of a finite float; 0 on the non-finite constructors. -/
def PyFloat.val : PyFloat → ℚ
  | .finite s m => if s then -m else m
  | .inf _ => 0
  | .nan => 0

/-- Finiteness test (true exactly on the `finite` constructor). -/
def PyFloat.isFinite : PyFloat → Bool
  | .finite _ _ => true
  | _ => false

/-- The Python comparison `x < 0` under IEEE semantics: negative zero
compares equal to zero, and NaN comparisons are false. -/
def PyFloat.ltZero : PyFloat → Bool
  | .finite s m => decide ((if s then -m else m) < 0)
  | .inf s => s
  | .nan => false

/-- Python `abs`: clears the sign bit (also on negative zero and on the
infinities); NaN stays NaN. -/
def PyFloat.pyAbs : PyFloat → PyFloat
  | .finite _ m => .finite false m
  | .inf _ => .inf false
  | .nan => .nan

/-- Multiplication of a float by a positive rational constant (the factor
`10 ^ scale`), idealised as exact on finite values; an infinity times a
positive constant stays the same infinity, and NaN propagates. -/
def PyFloat.mulPos : PyFloat → ℚ → PyFloat
  | .finite s m, c => .finite s (m * c)
  | .inf s, _ => .inf s
  | .nan, _ => .nan

/-- Python's built-in `round` on a rational value: round-half-to-even
(banker's rounding), returning an unbounded integer. -/
def pyRound (q : ℚ) : ℤ :=
  if q - (⌊q⌋ : ℚ) < 1 / 2 then ⌊q⌋
  else if 1 / 2 < q - (⌊q⌋ : ℚ) then ⌊q⌋ + 1
  else if ⌊q⌋ % 2 = 0 then ⌊q⌋ else ⌊q⌋ + 1

/-- Python's `round` applied to a float: rounds the value of a finite float,
raises `ValueError` on NaN and `OverflowError` on an infinity. -/
def PyFloat.pyRoundExc : PyFloat → Except PyErr ℤ
  | .finite s m => .ok (pyRound (if s then -m else m))
  | .inf _ => .error .overflowErrorInfToInt
  | .nan => .error .valueErrorNanToInt

/-- `float_to_fixed` (src/dev_sdk/read_h5.py, lines 62-68):
`sign_bit = 1 if x < 0 else 0`; `x = abs(x)`; `factor = 10 ** scale`;
`abs_val = round(x * factor)`; `return sign_bit, abs_val`. -/
def float_to_fixed (x : PyFloat) (scale : Nat) : Except PyErr (ℤ × ℤ) := do
  let sign_bit : ℤ := if x.ltZero then 1 else 0
  let x := x.pyAbs
  let factor : ℚ := 10 ^ scale
  let abs_val ← (x.mulPos factor).pyRoundExc
  return (sign_bit, abs_val)

/-- A numpy array of floats, rank 1 or rank 2 (stored as its list of rows). -/
inductive NpArray where
  | rank1 (data : List PyFloat)
  | rank2 (rows : List (List PyFloat))
  deriving DecidableEq, Repr

/-- `list(a.shape)`; numpy rank-2 arrays are rectangular, so the column count
is read off the first row. -/
def NpArray.shape : NpArray → List Nat
  | .rank1 d => [d.length]
  | .rank2 rows => [rows.length, (rows.headD []).length]

/-- `a.flatten()`: numpy's C-order (row-major) flatten. -/
def NpArray.flatten : NpArray → List PyFloat
  | .rank1 d => d
  | .rank2 rows => rows.flatten

/-- The slice of a Keras layer that `load_h5_model` reads: `layer.name` and
the list of parameter arrays returned by `layer.get_weights()` (empty exactly
when `layer.weights` is empty). -/
structure KerasLayer where
  name : String
  weights : List NpArray
  deriving DecidableEq, Repr

/-- One entry of the list returned by `load_h5_model`: layer name, kernel
shape and data, bias shape and data. -/
structure LayerRecord where
  layerName : String
  kernelShape : List Nat
  kernelData : NpArray
  biasShape : List Nat
  biasData : NpArray
  deriving DecidableEq, Repr

/-- The per-layer body of the extraction loop in `load_h5_model`
(src lines 88-107): skip a layer with no weights, skip a layer whose
parameter count is not exactly two, otherwise record the name and the two
parameter arrays with their shapes. -/
def extractLayer (layer : KerasLayer) : Option LayerRecord :=
  if layer.weights.isEmpty then none
  else
    match layer.weights with
    | [kernel, bias] =>
      some { layerName := layer.name
             kernelShape := kernel.shape
             kernelData := kernel
             biasShape := bias.shape
             biasData := bias }
    | _ => none

/-- `load_h5_model`, primary branch (src lines 86-110): iterate over the
model's layers in their declared order, keeping those `extractLayer`
retains. -/
def load_h5_model (model : List KerasLayer) : List LayerRecord :=
  model.filterMap extractLayer

/-- A Python `for` loop that appends one result per element and lets the
first raised exception propagate, discarding the partial list. -/
def mapExcept (f : α → Except PyErr β) : List α → Except PyErr (List β)
  | [] => .ok []
  | x :: xs =>
    match f x with
    | .error e => .error e
    | .ok y =>
      match mapExcept f xs with
      | .error e => .error e
      | .ok ys => .ok (y :: ys)

/-- One entry of the list returned by `convert_weights_to_fixed`: flat
magnitude and sign lists for kernel and bias, the copied shapes, and the
scale. -/
structure QuantizedLayer where
  layerName : String
  kernelMagnitude : List ℤ
  kernelSign : List ℤ
  kernelShape : List Nat
  biasMagnitude : List ℤ
  biasSign : List ℤ
  biasShape : List Nat
  scale : Nat
  deriving DecidableEq, Repr

/-- The per-layer body of `convert_weights_to_fixed` (src lines 148-176):
apply `float_to_fixed` to every element of the flattened kernel and bias,
collecting signs and magnitudes in flat order, and copy the shapes and the
scale. -/
def convertLayer (layer : LayerRecord) (scale : Nat) : Except PyErr QuantizedLayer :=
  match mapExcept (fun val => float_to_fixed val scale) layer.kernelData.flatten with
  | .error e => .error e
  | .ok kernelPairs =>
    match mapExcept (fun val => float_to_fixed val scale) layer.biasData.flatten with
    | .error e => .error e
    | .ok biasPairs =>
      .ok { layerName := layer.layerName
            kernelMagnitude := kernelPairs.map Prod.snd
            kernelSign := kernelPairs.map Prod.fst
            kernelShape := layer.kernelShape
            biasMagnitude := biasPairs.map Prod.snd
            biasSign := biasPairs.map Prod.fst
            biasShape := layer.biasShape
            scale := scale }

/-- `convert_weights_to_fixed` (src lines 144-178). -/
def convert_weights_to_fixed (weights : List LayerRecord) (scale : Nat) :
    Except PyErr (List QuantizedLayer) :=
  mapExcept (fun layer => convertLayer layer scale) weights

/-- The f-string header of `generate_move_code` (src lines 182-188). -/
def moveHeader : String :=
  "module models::model \x7b\n    use sui::tx_context::TxContext;\n    use tensorflowsui::graph;\n    use tensorflowsui::tensor;\n\n    public fun create_model_signed_fixed(graph: &mut graph::SignedFixedGraph, scale: u64) \x7b\n"

/-- One layer-declaration line (src lines 191-193); the tuple unpacking of
the shape list into input and output sizes raises `ValueError` unless the
list has exactly two entries. -/
def declLine (layer : QuantizedLayer) : Except PyErr String :=
  match layer.kernelShape with
  | [input_size, output_size] =>
    .ok ("        graph::DenseSignedFixed(graph, " ++ toString input_size ++ ", "
      ++ toString output_size ++ ", b\"" ++ layer.layerName ++ "\", scale);\n")
  | _ => .error .valueErrorUnpack

/-- A generated Move vector literal (src lines 197-200): decimal integers
joined by comma-space. -/
def vectorLit (xs : List ℤ) : String :=
  "vector[" ++ String.intercalate (", ") (xs.map toString) ++ "]"

/-- One per-layer weight block (src lines 196-215); indexing the first two
entries of the shape list raises `IndexError` when it is shorter than two. -/
def weightBlock (layer : QuantizedLayer) : Except PyErr String :=
  match layer.kernelShape with
  | s0 :: s1 :: _ =>
    let nm := layer.layerName
    .ok ("\n        let w" ++ nm ++ "_mag = " ++ vectorLit layer.kernelMagnitude
      ++ ";\n        let w" ++ nm ++ "_sign = " ++ vectorLit layer.kernelSign
      ++ ";\n        let b" ++ nm ++ "_mag = " ++ vectorLit layer.biasMagnitude
      ++ ";\n        let b" ++ nm ++ "_sign = " ++ vectorLit layer.biasSign
      ++ ";\n\n        graph::set_layer_weights_signed_fixed(\n            graph,\n            b\""
      ++ nm ++ "\",\n            w" ++ nm ++ "_mag, w" ++ nm ++ "_sign,\n            b"
      ++ nm ++ "_mag, b" ++ nm ++ "_sign,\n            " ++ toString s0 ++ ", "
      ++ toString s1 ++ ",\n            scale\n        );")
  | _ => .error .indexErrorShape

/-- The static helper-functions tail of `generate_move_code` (src lines
218-284). In the source this block is a plain (non-f) string, so its braces
are literal, the text `{scale}` is emitted verbatim rather than the scale
argument, and the emitted module ends with two closing braces. Two lines
carry trailing spaces, exactly as in the source. -/
def moveFooter : String := String.intercalate ("\n") [
  "",
  "    \x7d",
  "",
  "    entry public fun split_chunk_compute(",
  "        graph_obj: &graph::SignedFixedGraph,",
  "        pd: &mut graph::PartialDenses,",
  "        partial_name: vector<u8>,",
  "        input_magnitude: vector<u64>, input_sign: vector<u64>,",
  "        activation_type: u64,",
  "        start_j: u64,",
  "        end_j: u64",
  "    ) \x7b",
  "        graph::split_chunk_compute(graph_obj, pd, partial_name, input_magnitude, input_sign, activation_type, start_j, end_j);    ",
  "    \x7d",
  "",
  "    entry public fun split_chunk_finalize(",
  "        pd: &mut graph::PartialDenses,",
  "        partial_name: vector<u8>",
  "    ): (vector<u64>, vector<u64>, u64) \x7b",
  "        let mut results_mag = vector::empty<u64>();",
  "        let mut result_sign = vector::empty<u64>();",
  "        let mut results;",
  "        let (_results_mag, _result_sign, _results) = graph::split_chunk_finalize(pd, partial_name);",
  "",
  "        results_mag = _results_mag;",
  "        result_sign = _result_sign;",
  "        results = _results;",
  "",
  "        (results_mag, result_sign, results)",
  "    \x7d",
  "",
  "    entry public fun ptb_layer(",
  "        graph: &graph::SignedFixedGraph,",
  "        input_magnitude: vector<u64>, input_sign: vector<u64>,",
  "        scale: u64, name: vector<u8>",
  "    ) : (vector<u64>, vector<u64>, u64) \x7b",
  "        let mut results_mag = vector::empty<u64>();",
  "        let mut result_sign = vector::empty<u64>();",
  "        let mut results;",
  "",
  "        let (_results_mag, _result_sign, _results) = graph::ptb_layer(graph, input_magnitude, input_sign, scale, name);",
  "",
  "        results_mag = _results_mag;",
  "        result_sign = _result_sign;",
  "        results = _results;",
  "",
  "        (results_mag, result_sign, results)",
  "    \x7d",
  "",
  "    entry public fun ptb_layer_arg_max(",
  "        graph: &graph::SignedFixedGraph,",
  "        input_magnitude: vector<u64>, input_sign: vector<u64>,",
  "        scale: u64, name: vector<u8>",
  "    ) : u64 \x7b",
  "        let results = graph::ptb_layer_arg_max(graph, input_magnitude, input_sign, scale, name);",
  "        results",
  "    \x7d",
  "",
  "    public entry fun initialize(ctx: &mut TxContext) \x7b",
  "        let mut graph = graph::create_signed_graph(ctx);",
  "        create_model_signed_fixed(&mut graph, \x7bscale\x7d); ",
  "        let mut partials = graph::create_partial_denses(ctx);",
  "        graph::add_partials_for_all_but_last(&graph, &mut partials);",
  "        graph::share_graph(graph);",
  "        graph::share_partial(partials);",
  "    \x7d",
  "\x7d\x7d"]

/-- `generate_move_code` (src lines 180-286): the header, one declaration
line per layer, one weight block per layer, then the static tail. The
`scale` parameter is accepted but never interpolated into the output (the one
part of the template that mentions it is not an f-string). -/
def generate_move_code (converted_weights : List QuantizedLayer) (scale : Nat) :
    Except PyErr String :=
  match mapExcept declLine converted_weights with
  | .error e => .error e
  | .ok decls =>
    match mapExcept weightBlock converted_weights with
    | .error e => .error e
    | .ok blocks =>
      .ok (moveHeader ++ String.join decls ++ String.join blocks ++ moveFooter)

/-- The quantize-then-generate portion of `main` (src lines 428-433): any
exception raised during quantization propagates before any generated text
exists. -/
def pipeline (weights : List LayerRecord) (scale : Nat) : Except PyErr String :=
  match convert_weights_to_fixed weights scale with
  | .error e => .error e
  | .ok converted => generate_move_code converted scale

/-- The spec's LayerRecord invariant, used as a hypothesis: the kernel is a
rectangular rank-2 array of shape `[r, c]` and the bias is a rank-1 array of
length `c`. -/
def LayerRecord.wellFormed (L : LayerRecord) (r c : Nat) : Prop :=
  L.kernelShape = [r, c] ∧
  (∃ rows, L.kernelData = NpArray.rank2 rows ∧ rows.length = r ∧
    ∀ row ∈ rows, row.length = c) ∧
  (∃ d, L.biasData = NpArray.rank1 d ∧ d.length = c)

/-- Agreement on exactly the quantized-layer fields that
`generate_move_code` reads: layer name, kernel magnitudes, kernel signs,
kernel shape, bias magnitudes and bias signs — but not the stored per-layer
scale and not the bias shape. -/
def visibleEq (a b : QuantizedLayer) : Prop :=
  a.layerName = b.layerName ∧ a.kernelMagnitude = b.kernelMagnitude ∧
  a.kernelSign = b.kernelSign ∧ a.kernelShape = b.kernelShape ∧
  a.biasMagnitude = b.biasMagnitude ∧ a.biasSign = b.biasSign

/-- Statement-side bundle for the quantization-pass contract: lengths match
the flattened inputs element for element, the i-th sign/magnitude entries
encode the i-th row-major element, names and stored shapes are carried
through unchanged, and under the rectangularity invariant the kernel lists
have length `r * c` and the bias lists length `c`. -/
def QuantizationSpec (weights : List LayerRecord) (scale : Nat)
    (qs : List QuantizedLayer) : Prop :=
  qs.length = weights.length ∧
  ∀ i (hi : i < weights.length) (hi2 : i < qs.length),
    ((qs.get ⟨i, hi2⟩).layerName = (weights.get ⟨i, hi⟩).layerName ∧
     (qs.get ⟨i, hi2⟩).kernelShape = (weights.get ⟨i, hi⟩).kernelShape ∧
     (qs.get ⟨i, hi2⟩).biasShape = (weights.get ⟨i, hi⟩).biasShape) ∧
    ((qs.get ⟨i, hi2⟩).kernelMagnitude.length
        = (weights.get ⟨i, hi⟩).kernelData.flatten.length ∧
     (qs.get ⟨i, hi2⟩).kernelSign.length
        = (weights.get ⟨i, hi⟩).kernelData.flatten.length ∧
     (qs.get ⟨i, hi2⟩).biasMagnitude.length
        = (weights.get ⟨i, hi⟩).biasData.flatten.length ∧
     (qs.get ⟨i, hi2⟩).biasSign.length
        = (weights.get ⟨i, hi⟩).biasData.flatten.length) ∧
    (∀ j (hj : j < (weights.get ⟨i, hi⟩).kernelData.flatten.length)
        (hjm : j < (qs.get ⟨i, hi2⟩).kernelMagnitude.length)
        (hjs : j < (qs.get ⟨i, hi2⟩).kernelSign.length),
      float_to_fixed ((weights.get ⟨i, hi⟩).kernelData.flatten.get ⟨j, hj⟩) scale
        = .ok ((qs.get ⟨i, hi2⟩).kernelSign.get ⟨j, hjs⟩,
               (qs.get ⟨i, hi2⟩).kernelMagnitude.get ⟨j, hjm⟩)) ∧
    (∀ j (hj : j < (weights.get ⟨i, hi⟩).biasData.flatten.length)
        (hjm : j < (qs.get ⟨i, hi2⟩).biasMagnitude.length)
        (hjs : j < (qs.get ⟨i, hi2⟩).biasSign.length),
      float_to_fixed ((weights.get ⟨i, hi⟩).biasData.flatten.get ⟨j, hj⟩) scale
        = .ok ((qs.get ⟨i, hi2⟩).biasSign.get ⟨j, hjs⟩,
               (qs.get ⟨i, hi2⟩).biasMagnitude.get ⟨j, hjm⟩)) ∧
    (∀ r c, (weights.get ⟨i, hi⟩).wellFormed r c →
      (qs.get ⟨i, hi2⟩).kernelMagnitude.length = r * c ∧
      (qs.get ⟨i, hi2⟩).kernelSign.length = r * c ∧
      (qs.get ⟨i, hi2⟩).biasMagnitude.length = c ∧
      (qs.get ⟨i, hi2⟩).biasSign.length = c)

/-! ### Helper lemmas about the codec -/

/-- Evaluating the codec on a finite float: it always succeeds, with the
sign bit of the comparison `x < 0` and the half-to-even rounding of the
scaled magnitude. -/
theorem float_to_fixed_finite (s : Bool) (m : ℚ) (scale : Nat) :
    float_to_fixed (PyFloat.finite s m) scale
      = .ok ((if (PyFloat.finite s m).ltZero then 1 else 0 : ℤ), pyRound (m * 10 ^ scale)) := rfl

/-- Rounding a non-negative rational yields a non-negative integer. -/
theorem pyRound_nonneg (q : ℚ) (hq : 0 ≤ q) : 0 ≤ pyRound q := by
  have hf : (0 : ℤ) ≤ ⌊q⌋ := Int.floor_nonneg.mpr hq
  unfold pyRound
  split
  · exact hf
  · split
    · omega
    · split
      · exact hf
      · omega

/-- The rounded value is within one half of the argument. -/
theorem pyRound_near (q : ℚ) : |(pyRound q : ℚ) - q| ≤ 1 / 2 := by
  have h1 : (⌊q⌋ : ℚ) ≤ q := Int.floor_le q
  have h2 : q < ⌊q⌋ + 1 := Int.lt_floor_add_one q
  unfold pyRound
  split
  · rename_i h
    rw [abs_le]
    constructor <;> push_cast <;> linarith
  · rename_i h
    split
    · rename_i h'
      rw [abs_le]
      constructor <;> push_cast <;> linarith
    · rename_i h'
      have hr : q - (⌊q⌋ : ℚ) = 1 / 2 := le_antisymm (not_lt.mp h') (not_lt.mp h)
      split <;> (rw [abs_le]; constructor <;> push_cast <;> linarith)

/-- At an exact half-way point the rounded value is even (round half to
even). -/
theorem pyRound_tie_even (q : ℚ) (h : q - (⌊q⌋ : ℚ) = 1 / 2) : pyRound q % 2 = 0 := by
  unfold pyRound
  split
  · rename_i h'
    rw [h] at h'
    norm_num at h'
  · split
    · rename_i h'
      rw [h] at h'
      norm_num at h'
    · split
      · assumption
      · omega

/-- The absolute value of a finite float's rational value is its magnitude
field, provided that field is non-negative. -/
theorem abs_val_finite (s : Bool) (m : ℚ) (hm : 0 ≤ m) :
    |(PyFloat.finite s m).val| = m := by
  cases s <;> simp [PyFloat.val, abs_of_nonneg hm]

/-- The sign test of a finite float is the decision of `val < 0`. -/
theorem ltZero_finite (s : Bool) (m : ℚ) :
    (PyFloat.finite s m).ltZero = decide ((PyFloat.finite s m).val < 0) := rfl

/-! ### C1 -/

/-- C1: for every finite real `x` (sign bit `s`, magnitude `m ≥ 0`) and every
scale, the codec returns sign 1 exactly when `x < 0` and 0 otherwise, and the
magnitude `round(|x| * 10^scale)` under the implementation's fixed rounding
rule, which is round-half-to-even: the result is a non-negative integer
within one half of `|x| * 10^scale`, and even at exact ties. -/
theorem c1_codec_sign_magnitude_invariant (s : Bool) (m : ℚ) (hm : 0 ≤ m) (scale : Nat) :
    float_to_fixed (PyFloat.finite s m) scale
      = .ok ((if (PyFloat.finite s m).val < 0 then 1 else 0 : ℤ),
             pyRound (|(PyFloat.finite s m).val| * 10 ^ scale))
    ∧ 0 ≤ pyRound (|(PyFloat.finite s m).val| * 10 ^ scale)
    ∧ |(pyRound (|(PyFloat.finite s m).val| * 10 ^ scale) : ℚ)
        - |(PyFloat.finite s m).val| * 10 ^ scale| ≤ 1 / 2
    ∧ (|(PyFloat.finite s m).val| * 10 ^ scale
        - (⌊|(PyFloat.finite s m).val| * 10 ^ scale⌋ : ℚ) = 1 / 2
        → pyRound (|(PyFloat.finite s m).val| * 10 ^ scale) % 2 = 0) := by
  have habs : |(PyFloat.finite s m).val| = m := abs_val_finite s m hm
  have hq : (0 : ℚ) ≤ m * 10 ^ scale :=
    mul_nonneg hm (pow_nonneg (by norm_num) scale)
  refine ⟨?_, ?_, ?_, ?_⟩
  · rw [habs, float_to_fixed_finite, ltZero_finite]
    simp [decide_eq_true_iff]
  · rw [habs]; exact pyRound_nonneg _ hq
  · rw [habs]; exact pyRound_near _
  · rw [habs]; exact pyRound_tie_even _

/-- Witness for C1 at the concrete input `-2.0`, scale 1. -/
theorem c1_codec_sign_magnitude_invariant_witness :
    (0 : ℚ) ≤ 2 ∧
    (float_to_fixed (PyFloat.finite true 2) 1
      = .ok ((if (PyFloat.finite true 2).val < 0 then 1 else 0 : ℤ),
             pyRound (|(PyFloat.finite true 2).val| * 10 ^ (1 : ℕ)))
    ∧ 0 ≤ pyRound (|(PyFloat.finite true 2).val| * 10 ^ (1 : ℕ))
    ∧ |(pyRound (|(PyFloat.finite true 2).val| * 10 ^ (1 : ℕ)) : ℚ)
        - |(PyFloat.finite true 2).val| * 10 ^ (1 : ℕ)| ≤ 1 / 2
    ∧ (|(PyFloat.finite true 2).val| * 10 ^ (1 : ℕ)
        - (⌊|(PyFloat.finite true 2).val| * 10 ^ (1 : ℕ)⌋ : ℚ) = 1 / 2
        → pyRound (|(PyFloat.finite true 2).val| * 10 ^ (1 : ℕ)) % 2 = 0)) :=
  ⟨by norm_num, c1_codec_sign_magnitude_invariant true 2 (by norm_num) 1⟩

/-! ### C4 -/

/-- C4 counterexample: on negative zero at scale 0 the codec returns sign 0,
not the claimed sign 1 — the comparison with zero does not see the sign bit
of negative zero. -/
theorem c4_counterexample :
    float_to_fixed (PyFloat.finite true 0) 0 = .ok (0, 0) ∧ ((0 : ℤ) ≠ 1) :=
  ⟨by decide, by decide⟩

/-- C4 amended: at every scale, negative zero and positive zero both encode
to magnitude 0 and sign 0: the sign bit of negative zero is normalized away
by the comparison with zero rather than preserved. -/
theorem c4_signed_zero_encoding (scale : Nat) :
    float_to_fixed (PyFloat.finite true 0) scale = .ok (0, 0) ∧
    float_to_fixed (PyFloat.finite false 0) scale = .ok (0, 0) := by
  have h0 : pyRound (0 : ℚ) = 0 := by
    norm_num [pyRound]
  constructor <;> rw [float_to_fixed_finite] <;> simp [PyFloat.ltZero, h0]

/-! ### C8 -/

/-- C8 counterexample: at input 2^64 with scale 0 the quantized magnitude is
2^64, which does not fit in 64 unsigned bits, yet the codec returns it
successfully instead of failing. -/
theorem c8_counterexample :
    float_to_fixed (PyFloat.finite false (2 ^ 64)) 0 = .ok (0, 18446744073709551616) ∧
    ¬ (18446744073709551616 : ℤ) < 2 ^ 64 :=
  ⟨by decide, by decide⟩

/-- C8 amended: the codec performs no representable-width check: on every
finite input it succeeds, returning the full rounded magnitude as an
unbounded integer (in particular also when that magnitude is at least 2^64);
no MagnitudeOverflow failure exists. -/
theorem c8_no_overflow_check (s : Bool) (m : ℚ) (scale : Nat) :
    (float_to_fixed (PyFloat.finite s m) scale).isOk = true ∧
    float_to_fixed (PyFloat.finite s m) scale
      = .ok ((if (PyFloat.finite s m).ltZero then 1 else 0 : ℤ), pyRound (m * 10 ^ scale)) :=
  ⟨by rw [float_to_fixed_finite]; rfl, float_to_fixed_finite s m scale⟩

/-! ### Extractor lemmas, C6 and C7 -/

/-- Characterization of the extraction loop: exactly the layers with two
parameter arrays are kept, in the model's order, with both arrays and their
shapes recorded. -/
theorem load_h5_model_eq (model : List KerasLayer) :
    load_h5_model model
      = (model.filter (fun l => l.weights.length == 2)).map (fun l =>
          { layerName := l.name
            kernelShape := (l.weights.getD 0 (.rank1 [])).shape
            kernelData := l.weights.getD 0 (.rank1 [])
            biasShape := (l.weights.getD 1 (.rank1 [])).shape
            biasData := l.weights.getD 1 (.rank1 []) }) := by
  induction model with
  | nil => rfl
  | cons l ls ih =>
    rw [load_h5_model, List.filterMap_cons, List.filter_cons]
    match hw : l.weights with
    | [] => simpa [extractLayer, hw, load_h5_model] using ih
    | [a] => simpa [extractLayer, hw, load_h5_model] using ih
    | [a, b] => simpa [extractLayer, hw, load_h5_model] using ih
    | a :: b :: c :: t => simpa [extractLayer, hw, load_h5_model] using ih

/-- C6: the extractor, walking the model's declared layer order, skips
(without failing) every layer with no parameter arrays and every layer whose
parameter count is not exactly two, and the output is exactly the retained
layers in the model's native order — in particular a layer with a single
parameter tensor is excluded entirely. -/
theorem c6_extractor_skips_non_dense (model : List KerasLayer) :
    load_h5_model model
      = (model.filter (fun l => l.weights.length == 2)).map (fun l =>
          { layerName := l.name
            kernelShape := (l.weights.getD 0 (.rank1 [])).shape
            kernelData := l.weights.getD 0 (.rank1 [])
            biasShape := (l.weights.getD 1 (.rank1 [])).shape
            biasData := l.weights.getD 1 (.rank1 []) }) :=
  load_h5_model_eq model

/-- C7 counterexample: a layer whose kernel has output dimension 2 but whose
bias has length 3 is retained by the extractor with no failure of any kind —
the claimed ShapeMismatch validation does not exist in the code. -/
theorem c7_counterexample :
    load_h5_model
        [⟨"dense", [.rank2 [[.finite false 1, .finite false 2]],
                    .rank1 [.finite false 0, .finite false 0, .finite false 0]]⟩]
      = [⟨"dense", [1, 2], .rank2 [[.finite false 1, .finite false 2]], [3],
          .rank1 [.finite false 0, .finite false 0, .finite false 0]⟩]
    ∧ (2 : Nat) ≠ 3 :=
  ⟨by decide, by decide⟩

/-- C7 amended: the extractor performs no kernel/bias shape-compatibility
validation: every layer with exactly two parameter arrays is retained with
its shapes stored as-is, whether or not the kernel's output dimension equals
the bias's length, and no ShapeMismatch failure occurs. -/
theorem c7_no_shape_validation (model : List KerasLayer) (l : KerasLayer)
    (k b : NpArray) (hl : l ∈ model) (hw : l.weights = [k, b]) :
    ({ layerName := l.name
       kernelShape := k.shape
       kernelData := k
       biasShape := b.shape
       biasData := b } : LayerRecord) ∈ load_h5_model model := by
  unfold load_h5_model
  exact List.mem_filterMap.mpr ⟨l, hl, by simp [extractLayer, hw]⟩

/-- Witness for C7 (amended) at a concrete mismatched layer: kernel output
dimension 1, bias length 2. -/
theorem c7_no_shape_validation_witness :
    ({ name := "d", weights := [.rank1 [.finite false 1], .rank1 [.nan, .nan]] } : KerasLayer)
        ∈ [({ name := "d", weights := [.rank1 [.finite false 1], .rank1 [.nan, .nan]] } : KerasLayer)]
    ∧ ({ layerName := "d"
         kernelShape := NpArray.shape (.rank1 [.finite false 1])
         kernelData := .rank1 [.finite false 1]
         biasShape := NpArray.shape (.rank1 [.nan, .nan])
         biasData := .rank1 [.nan, .nan] } : LayerRecord)
        ∈ load_h5_model [{ name := "d", weights := [.rank1 [.finite false 1], .rank1 [.nan, .nan]] }] :=
  ⟨by decide,
   c7_no_shape_validation
     [{ name := "d", weights := [.rank1 [.finite false 1], .rank1 [.nan, .nan]] }]
     { name := "d", weights := [.rank1 [.finite false 1], .rank1 [.nan, .nan]] }
     (.rank1 [.finite false 1]) (.rank1 [.nan, .nan]) (by decide) rfl⟩

/-! ### Lemmas about `mapExcept` -/

theorem mapExcept_ok_length {α β : Type} {f : α → Except PyErr β} {xs : List α}
    {ys : List β} (h : mapExcept f xs = .ok ys) : ys.length = xs.length := by
  induction xs generalizing ys with
  | nil =>
    rw [mapExcept] at h
    cases h
    rfl
  | cons x xs ih =>
    cases hf : f x with
    | error e => simp [mapExcept, hf] at h
    | ok y =>
      cases hr : mapExcept f xs with
      | error e => simp [mapExcept, hf, hr] at h
      | ok zs =>
        simp [mapExcept, hf, hr] at h
        subst h
        simp [ih hr]

theorem mapExcept_ok_get {α β : Type} {f : α → Except PyErr β} {xs : List α}
    {ys : List β} (h : mapExcept f xs = .ok ys) :
    ∀ i (hi : i < xs.length) (hi2 : i < ys.length),
      f (xs.get ⟨i, hi⟩) = .ok (ys.get ⟨i, hi2⟩) := by
  induction xs generalizing ys with
  | nil =>
    intro i hi
    simp at hi
  | cons x xs ih =>
    cases hf : f x with
    | error e => simp [mapExcept, hf] at h
    | ok y =>
      cases hr : mapExcept f xs with
      | error e => simp [mapExcept, hf, hr] at h
      | ok zs =>
        simp [mapExcept, hf, hr] at h
        subst h
        intro i hi hi2
        cases i with
        | zero => simpa using hf
        | succ j => exact ih hr j (by simpa using hi) (by simpa using hi2)

theorem mapExcept_error_src {α β : Type} {f : α → Except PyErr β} {xs : List α}
    {e : PyErr} (h : mapExcept f xs = .error e) : ∃ x ∈ xs, f x = .error e := by
  induction xs with
  | nil => cases h
  | cons x xs ih =>
    cases hf : f x with
    | error e0 =>
      simp [mapExcept, hf] at h
      exact ⟨x, by simp, by rw [hf, h]⟩
    | ok y =>
      cases hr : mapExcept f xs with
      | error e0 =>
        simp [mapExcept, hf, hr] at h
        obtain ⟨z, hz, hfz⟩ := ih (by rw [hr, h])
        exact ⟨z, by simp [hz], hfz⟩
      | ok zs => simp [mapExcept, hf, hr] at h

theorem mapExcept_error_of_mem {α β : Type} {f : α → Except PyErr β} {xs : List α}
    {x : α} (hx : x ∈ xs) {e : PyErr} (hfx : f x = .error e) :
    ∃ e2, mapExcept f xs = .error e2 := by
  induction xs with
  | nil => cases hx
  | cons y ys ih =>
    cases hfy : f y with
    | error e2 => exact ⟨e2, by simp [mapExcept, hfy]⟩
    | ok v =>
      rcases List.mem_cons.mp hx with rfl | hx2
      · rw [hfx] at hfy
        cases hfy
      · obtain ⟨e2, he2⟩ := ih hx2
        exact ⟨e2, by simp [mapExcept, hfy, he2]⟩

/-! ### Quantization-pass lemmas and C2 -/

/-- Flattening a rectangular rank-2 array with rows of length `c` yields
`rows * c` elements. -/
theorem flatten_length_rect {rows : List (List PyFloat)} {c : Nat}
    (hc : ∀ row ∈ rows, row.length = c) :
    (NpArray.rank2 rows).flatten.length = rows.length * c := by
  induction rows with
  | nil => simp [NpArray.flatten]
  | cons row rest ih =>
    have h1 : row.length = c := hc row (by simp)
    have h2 : ∀ row2 ∈ rest, row2.length = c := fun r2 hr2 => hc r2 (by simp [hr2])
    have h3 := ih h2
    simp only [NpArray.flatten, List.flatten_cons, List.length_append, List.length_cons] at *
    rw [h1, h3]
    ring

/-- Successful quantization of one layer, characterised field by field. -/
theorem convertLayer_ok_spec {layer : LayerRecord} {scale : Nat} {q : QuantizedLayer}
    (h : convertLayer layer scale = .ok q) :
    q.layerName = layer.layerName ∧ q.kernelShape = layer.kernelShape ∧
    q.biasShape = layer.biasShape ∧ q.scale = scale ∧
    q.kernelMagnitude.length = layer.kernelData.flatten.length ∧
    q.kernelSign.length = layer.kernelData.flatten.length ∧
    q.biasMagnitude.length = layer.biasData.flatten.length ∧
    q.biasSign.length = layer.biasData.flatten.length ∧
    (∀ j (hj : j < layer.kernelData.flatten.length)
        (hjm : j < q.kernelMagnitude.length) (hjs : j < q.kernelSign.length),
      float_to_fixed (layer.kernelData.flatten.get ⟨j, hj⟩) scale
        = .ok (q.kernelSign.get ⟨j, hjs⟩, q.kernelMagnitude.get ⟨j, hjm⟩)) ∧
    (∀ j (hj : j < layer.biasData.flatten.length)
        (hjm : j < q.biasMagnitude.length) (hjs : j < q.biasSign.length),
      float_to_fixed (layer.biasData.flatten.get ⟨j, hj⟩) scale
        = .ok (q.biasSign.get ⟨j, hjs⟩, q.biasMagnitude.get ⟨j, hjm⟩)) := by
  cases hk : mapExcept (fun val => float_to_fixed val scale) layer.kernelData.flatten with
  | error e => simp [convertLayer, hk] at h
  | ok kernelPairs =>
    cases hb : mapExcept (fun val => float_to_fixed val scale) layer.biasData.flatten with
    | error e => simp [convertLayer, hk, hb] at h
    | ok biasPairs =>
      simp [convertLayer, hk, hb] at h
      subst h
      refine ⟨rfl, rfl, rfl, rfl, ?_, ?_, ?_, ?_, ?_, ?_⟩
      · simpa using mapExcept_ok_length hk
      · simpa using mapExcept_ok_length hk
      · simpa using mapExcept_ok_length hb
      · simpa using mapExcept_ok_length hb
      · intro j hj hjm hjs
        have hjp : j < kernelPairs.length := by simpa using hjm
        have := mapExcept_ok_get hk j hj hjp
        simpa [List.get_eq_getElem, List.getElem_map] using this
      · intro j hj hjm hjs
        have hjp : j < biasPairs.length := by simpa using hjm
        have := mapExcept_ok_get hb j hj hjp
        simpa [List.get_eq_getElem, List.getElem_map] using this

/-- C2: whenever the quantization pass succeeds, every layer's kernel and
bias are flattened in row-major order and encoded element-wise in that order
(the i-th magnitude and sign encode the i-th row-major element), the output
list lengths equal rows*cols for the kernel and cols for the bias under the
rectangularity invariant, and the stored shapes equal the original shapes
unchanged. -/
theorem c2_quantization_flat_row_major (weights : List LayerRecord) (scale : Nat)
    (qs : List QuantizedLayer) (hok : convert_weights_to_fixed weights scale = .ok qs) :
    QuantizationSpec weights scale qs := by
  have hok2 : mapExcept (fun layer => convertLayer layer scale) weights = .ok qs := hok
  refine ⟨mapExcept_ok_length hok2, ?_⟩
  intro i hi hi2
  have hco : convertLayer (weights.get ⟨i, hi⟩) scale = .ok (qs.get ⟨i, hi2⟩) :=
    mapExcept_ok_get hok2 i hi hi2
  obtain ⟨h1, h2, h3, _, h5, h6, h7, h8, h9, h10⟩ := convertLayer_ok_spec hco
  refine ⟨⟨h1, h2, h3⟩, ⟨h5, h6, h7, h8⟩, h9, h10, ?_⟩
  rintro r c ⟨hshape, ⟨rows, hrows, hrlen, hrc⟩, ⟨d, hd, hdlen⟩⟩
  have hkflat : (weights.get ⟨i, hi⟩).kernelData.flatten.length = r * c := by
    rw [hrows, flatten_length_rect hrc, hrlen]
  have hbflat : (weights.get ⟨i, hi⟩).biasData.flatten.length = c := by
    rw [hd]
    simpa [NpArray.flatten] using hdlen
  exact ⟨by rw [h5, hkflat], by rw [h6, hkflat], by rw [h7, hbflat], by rw [h8, hbflat]⟩

/-- Witness for C2: one 1x2 layer, values 1.0 and -2.0, bias 0.0 and 1.0, at
scale 0. -/
theorem c2_quantization_flat_row_major_witness :
    convert_weights_to_fixed
        [{ layerName := "a"
           kernelShape := [1, 2]
           kernelData := .rank2 [[.finite false 1, .finite true 2]]
           biasShape := [2]
           biasData := .rank1 [.finite false 0, .finite false 1] }] 0
      = .ok [{ layerName := "a"
               kernelMagnitude := [1, 2]
               kernelSign := [0, 1]
               kernelShape := [1, 2]
               biasMagnitude := [0, 1]
               biasSign := [0, 0]
               biasShape := [2]
               scale := 0 }]
    ∧ QuantizationSpec
        [{ layerName := "a"
           kernelShape := [1, 2]
           kernelData := .rank2 [[.finite false 1, .finite true 2]]
           biasShape := [2]
           biasData := .rank1 [.finite false 0, .finite false 1] }] 0
        [{ layerName := "a"
           kernelMagnitude := [1, 2]
           kernelSign := [0, 1]
           kernelShape := [1, 2]
           biasMagnitude := [0, 1]
           biasSign := [0, 0]
           biasShape := [2]
           scale := 0 }] :=
  ⟨by decide,
   c2_quantization_flat_row_major
     [{ layerName := "a"
        kernelShape := [1, 2]
        kernelData := .rank2 [[.finite false 1, .finite true 2]]
        biasShape := [2]
        biasData := .rank1 [.finite false 0, .finite false 1] }] 0
     [{ layerName := "a"
        kernelMagnitude := [1, 2]
        kernelSign := [0, 1]
        kernelShape := [1, 2]
        biasMagnitude := [0, 1]
        biasSign := [0, 0]
        biasShape := [2]
        scale := 0 }] (by decide)⟩

/-! ### Error propagation through the quantization pass: C9 and C5 -/

/-- A failing quantization of one layer traces back to the codec failing on
some flattened element of that layer, with the same error. -/
theorem convertLayer_error_src {layer : LayerRecord} {scale : Nat} {e : PyErr}
    (h : convertLayer layer scale = .error e) :
    ∃ v, (v ∈ layer.kernelData.flatten ∨ v ∈ layer.biasData.flatten) ∧
      float_to_fixed v scale = .error e := by
  cases hk : mapExcept (fun val => float_to_fixed val scale) layer.kernelData.flatten with
  | error e0 =>
    simp [convertLayer, hk] at h
    obtain ⟨v, hv, hfv⟩ := mapExcept_error_src (show mapExcept _ _ = .error e by rw [hk, h])
    exact ⟨v, Or.inl hv, hfv⟩
  | ok kernelPairs =>
    cases hb : mapExcept (fun val => float_to_fixed val scale) layer.biasData.flatten with
    | error e0 =>
      simp [convertLayer, hk, hb] at h
      obtain ⟨v, hv, hfv⟩ := mapExcept_error_src (show mapExcept _ _ = .error e by rw [hb, h])
      exact ⟨v, Or.inr hv, hfv⟩
    | ok biasPairs => simp [convertLayer, hk, hb] at h

/-- If the codec fails on any flattened element of a layer, quantizing that
layer fails. -/
theorem convertLayer_error_of_mem {layer : LayerRecord} {scale : Nat} {v : PyFloat}
    (hv : v ∈ layer.kernelData.flatten ∨ v ∈ layer.biasData.flatten)
    {e : PyErr} (hfv : float_to_fixed v scale = .error e) :
    ∃ e2, convertLayer layer scale = .error e2 := by
  rcases hv with hv | hv
  · obtain ⟨e2, he2⟩ :=
      mapExcept_error_of_mem (f := fun val => float_to_fixed val scale) hv hfv
    exact ⟨e2, by simp [convertLayer, he2]⟩
  · cases hk : mapExcept (fun val => float_to_fixed val scale) layer.kernelData.flatten with
    | error e0 => exact ⟨e0, by simp [convertLayer, hk]⟩
    | ok kernelPairs =>
      obtain ⟨e2, he2⟩ :=
        mapExcept_error_of_mem (f := fun val => float_to_fixed val scale) hv hfv
      exact ⟨e2, by simp [convertLayer, hk, he2]⟩

/-- C9 counterexample: two single-layer inputs that differ in layer name and
in the flat position of the offending NaN produce the very same error value,
so the error carries no layer-name or flat-index annotation. -/
theorem c9_counterexample :
    convert_weights_to_fixed
        [{ layerName := "a"
           kernelShape := [1, 2]
           kernelData := .rank2 [[.nan, .finite false 1]]
           biasShape := [2]
           biasData := .rank1 [.finite false 0, .finite false 0] }] 2
      = .error .valueErrorNanToInt
    ∧ convert_weights_to_fixed
        [{ layerName := "b"
           kernelShape := [1, 2]
           kernelData := .rank2 [[.finite false 1, .nan]]
           biasShape := [2]
           biasData := .rank1 [.finite false 0, .finite false 0] }] 2
      = .error .valueErrorNanToInt
    ∧ ("a" : String) ≠ "b" :=
  ⟨by decide, by decide, by decide⟩

/-- C9 amended: a codec failure on any element of any layer aborts the whole
pass with a codec error (no partially quantized output is returned), and the
propagated error is the raw error the codec produced on some offending
element — it is not annotated with the layer name or the flat index. -/
theorem c9_codec_failure_aborts_pass (weights : List LayerRecord) (scale : Nat)
    (L : LayerRecord) (hL : L ∈ weights) (v : PyFloat)
    (hv : v ∈ L.kernelData.flatten ∨ v ∈ L.biasData.flatten)
    (e : PyErr) (he : float_to_fixed v scale = .error e) :
    ∃ e2, convert_weights_to_fixed weights scale = .error e2 ∧
      ∃ L2 ∈ weights, ∃ v2,
        (v2 ∈ L2.kernelData.flatten ∨ v2 ∈ L2.biasData.flatten) ∧
        float_to_fixed v2 scale = .error e2 := by
  obtain ⟨e1, he1⟩ := convertLayer_error_of_mem hv he
  obtain ⟨e2, he2⟩ :=
    mapExcept_error_of_mem (f := fun layer => convertLayer layer scale) hL he1
  obtain ⟨L2, hL2, hco⟩ := mapExcept_error_src he2
  obtain ⟨v2, hv2, hfv2⟩ := convertLayer_error_src hco
  exact ⟨e2, he2, L2, hL2, v2, hv2, hfv2⟩

/-- Witness for C9 (amended): a NaN kernel element in a concrete one-layer
input aborts the pass. -/
theorem c9_codec_failure_aborts_pass_witness :
    (({ layerName := "a"
        kernelShape := [1, 2]
        kernelData := .rank2 [[.nan, .finite false 1]]
        biasShape := [2]
        biasData := .rank1 [.finite false 0, .finite false 0] } : LayerRecord)
      ∈ [({ layerName := "a"
            kernelShape := [1, 2]
            kernelData := .rank2 [[.nan, .finite false 1]]
            biasShape := [2]
            biasData := .rank1 [.finite false 0, .finite false 0] } : LayerRecord)])
    ∧ float_to_fixed .nan 2 = .error .valueErrorNanToInt
    ∧ (∃ e2, convert_weights_to_fixed
          [{ layerName := "a"
             kernelShape := [1, 2]
             kernelData := .rank2 [[.nan, .finite false 1]]
             biasShape := [2]
             biasData := .rank1 [.finite false 0, .finite false 0] }] 2 = .error e2 ∧
        ∃ L2 ∈ [({ layerName := "a"
                   kernelShape := [1, 2]
                   kernelData := .rank2 [[.nan, .finite false 1]]
                   biasShape := [2]
                   biasData := .rank1 [.finite false 0, .finite false 0] } : LayerRecord)],
          ∃ v2, (v2 ∈ L2.kernelData.flatten ∨ v2 ∈ L2.biasData.flatten) ∧
            float_to_fixed v2 2 = .error e2) :=
  ⟨by decide, by decide,
   c9_codec_failure_aborts_pass
     [{ layerName := "a"
        kernelShape := [1, 2]
        kernelData := .rank2 [[.nan, .finite false 1]]
        biasShape := [2]
        biasData := .rank1 [.finite false 0, .finite false 0] }] 2
     { layerName := "a"
       kernelShape := [1, 2]
       kernelData := .rank2 [[.nan, .finite false 1]]
       biasShape := [2]
       biasData := .rank1 [.finite false 0, .finite false 0] }
     (by decide) .nan (by decide) .valueErrorNanToInt (by decide)⟩

/-! ### C5 -/

/-- The codec on a signed infinity: Python's `round` raises `OverflowError`. -/
theorem float_to_fixed_inf (s : Bool) (scale : Nat) :
    float_to_fixed (.inf s) scale = .error .overflowErrorInfToInt := rfl

/-- The codec on NaN: Python's `round` raises `ValueError`. -/
theorem float_to_fixed_nan (scale : Nat) :
    float_to_fixed .nan scale = .error .valueErrorNanToInt := rfl

/-- Any error the codec produces is in the non-finite-input class (the
spec's InvalidValue kind). -/
theorem float_to_fixed_error_invalid {x : PyFloat} {scale : Nat} {e : PyErr}
    (h : float_to_fixed x scale = .error e) : e.isInvalidValue = true := by
  cases x with
  | finite s m =>
    rw [float_to_fixed_finite] at h
    cases h
  | inf s =>
    rw [float_to_fixed_inf] at h
    cases h
    rfl
  | nan =>
    rw [float_to_fixed_nan] at h
    cases h
    rfl

/-- A non-finite float makes the codec fail with a non-finite-input error. -/
theorem float_to_fixed_nonfinite {x : PyFloat} (hx : x.isFinite = false) (scale : Nat) :
    ∃ e, float_to_fixed x scale = .error e ∧ e.isInvalidValue = true := by
  cases x with
  | finite s m => simp [PyFloat.isFinite] at hx
  | inf s => exact ⟨_, float_to_fixed_inf s scale, rfl⟩
  | nan => exact ⟨_, float_to_fixed_nan scale, rfl⟩

/-- C5: on every non-finite input (NaN or an infinity) at any scale the codec
fails with a non-finite-input error (the spec's InvalidValue kind), and
whenever such a value occurs among the weights, the quantize-then-generate
pipeline aborts with such an error and produces no output text. -/
theorem c5_nonfinite_rejected_pipeline_aborts (x : PyFloat)
    (hx : x.isFinite = false) (scale : Nat) :
    (∃ e, float_to_fixed x scale = .error e ∧ e.isInvalidValue = true) ∧
    ∀ weights L, L ∈ weights →
      (x ∈ L.kernelData.flatten ∨ x ∈ L.biasData.flatten) →
      ∃ e, pipeline weights scale = .error e ∧ e.isInvalidValue = true := by
  obtain ⟨e, he, hiv⟩ := float_to_fixed_nonfinite hx scale
  refine ⟨⟨e, he, hiv⟩, ?_⟩
  intro weights L hL hmem
  obtain ⟨e1, he1⟩ := convertLayer_error_of_mem hmem he
  obtain ⟨e2, he2⟩ :=
    mapExcept_error_of_mem (f := fun layer => convertLayer layer scale) hL he1
  have hcv : convert_weights_to_fixed weights scale = .error e2 := he2
  obtain ⟨L2, hL2, hco⟩ := mapExcept_error_src he2
  obtain ⟨v2, hv2, hfv2⟩ := convertLayer_error_src hco
  exact ⟨e2, by simp [pipeline, hcv], float_to_fixed_error_invalid hfv2⟩

/-- Witness for C5 with NaN at scale 3 inside a concrete one-layer input. -/
theorem c5_nonfinite_rejected_pipeline_aborts_witness :
    PyFloat.nan.isFinite = false ∧
    ((∃ e, float_to_fixed .nan 3 = .error e ∧ e.isInvalidValue = true) ∧
     ∀ weights L, L ∈ weights →
       (PyFloat.nan ∈ L.kernelData.flatten ∨ PyFloat.nan ∈ L.biasData.flatten) →
       ∃ e, pipeline weights 3 = .error e ∧ e.isInvalidValue = true) :=
  ⟨by decide, c5_nonfinite_rejected_pipeline_aborts .nan (by decide) 3⟩

/-! ### Generator claims: C3 and C10 -/

/-- C3: the code generator is deterministic — two invocations on identical
(quantized layer sequence, scale) inputs produce byte-identical module
text. -/
theorem c3_generator_deterministic (l1 l2 : List QuantizedLayer) (s1 s2 : Nat)
    (h1 : l1 = l2) (h2 : s1 = s2) :
    generate_move_code l1 s1 = generate_move_code l2 s2 := by
  subst h1
  subst h2
  rfl

/-- Witness for C3 on a concrete one-layer input. -/
theorem c3_generator_deterministic_witness :
    ([({ layerName := "a"
         kernelMagnitude := [1]
         kernelSign := [0]
         kernelShape := [1, 1]
         biasMagnitude := [2]
         biasSign := [1]
         biasShape := [1]
         scale := 2 } : QuantizedLayer)]
      = [({ layerName := "a"
            kernelMagnitude := [1]
            kernelSign := [0]
            kernelShape := [1, 1]
            biasMagnitude := [2]
            biasSign := [1]
            biasShape := [1]
            scale := 2 } : QuantizedLayer)])
    ∧ (2 : Nat) = 2
    ∧ generate_move_code
        [{ layerName := "a"
           kernelMagnitude := [1]
           kernelSign := [0]
           kernelShape := [1, 1]
           biasMagnitude := [2]
           biasSign := [1]
           biasShape := [1]
           scale := 2 }] 2
      = generate_move_code
        [{ layerName := "a"
           kernelMagnitude := [1]
           kernelSign := [0]
           kernelShape := [1, 1]
           biasMagnitude := [2]
           biasSign := [1]
           biasShape := [1]
           scale := 2 }] 2 :=
  ⟨rfl, rfl,
   c3_generator_deterministic
     [{ layerName := "a"
        kernelMagnitude := [1]
        kernelSign := [0]
        kernelShape := [1, 1]
        biasMagnitude := [2]
        biasSign := [1]
        biasShape := [1]
        scale := 2 }]
     [{ layerName := "a"
        kernelMagnitude := [1]
        kernelSign := [0]
        kernelShape := [1, 1]
        biasMagnitude := [2]
        biasSign := [1]
        biasShape := [1]
        scale := 2 }] 2 2 rfl rfl⟩

/-- The declaration line reads only fields that `visibleEq` constrains. -/
theorem declLine_congr {a b : QuantizedLayer} (h : visibleEq a b) :
    declLine a = declLine b := by
  obtain ⟨hn, hkm, hks, hsh, hbm, hbs⟩ := h
  unfold declLine
  rw [hn, hsh]

/-- The weight block reads only fields that `visibleEq` constrains. -/
theorem weightBlock_congr {a b : QuantizedLayer} (h : visibleEq a b) :
    weightBlock a = weightBlock b := by
  obtain ⟨hn, hkm, hks, hsh, hbm, hbs⟩ := h
  unfold weightBlock
  rw [hn, hkm, hks, hsh, hbm, hbs]

/-- `mapExcept` is determined by the images of `f`, so any relation under
which `f` is constant induces equal results. -/
theorem mapExcept_congr_rel {α β : Type} {f : α → Except PyErr β} {l1 l2 : List α}
    (R : α → α → Prop) (hR : ∀ a b, R a b → f a = f b)
    (h : List.Forall₂ R l1 l2) :
    mapExcept f l1 = mapExcept f l2 := by
  induction h with
  | nil => rfl
  | cons hab htail ih => rw [mapExcept, mapExcept, hR _ _ hab, ih]

/-- C10: the generated module text depends only on each layer's name, kernel
magnitudes and signs, kernel shape, bias magnitudes and signs, and the scale
argument: two quantized-layer sequences related by `visibleEq` — i.e.
differing at most in the per-layer stored scale field and the bias shape
field — generate byte-identical text, because the generator never reads
those two fields. -/
theorem c10_generator_ignores_stored_scale_and_bias_shape
    (l1 l2 : List QuantizedLayer) (scale : Nat)
    (h : List.Forall₂ visibleEq l1 l2) :
    generate_move_code l1 scale = generate_move_code l2 scale := by
  unfold generate_move_code
  rw [mapExcept_congr_rel visibleEq (fun a b hab => declLine_congr hab) h,
      mapExcept_congr_rel visibleEq (fun a b hab => weightBlock_congr hab) h]

/-- Witness for C10: two one-layer sequences differing exactly in the stored
scale field (2 vs 9) and the bias shape field ([1] vs [7, 7]) generate the
same text at scale argument 3. -/
theorem c10_generator_ignores_stored_scale_and_bias_shape_witness :
    List.Forall₂ visibleEq
      [({ layerName := "a"
          kernelMagnitude := [1]
          kernelSign := [0]
          kernelShape := [1, 1]
          biasMagnitude := [2]
          biasSign := [1]
          biasShape := [1]
          scale := 2 } : QuantizedLayer)]
      [({ layerName := "a"
          kernelMagnitude := [1]
          kernelSign := [0]
          kernelShape := [1, 1]
          biasMagnitude := [2]
          biasSign := [1]
          biasShape := [7, 7]
          scale := 9 } : QuantizedLayer)]
    ∧ generate_move_code
        [{ layerName := "a"
           kernelMagnitude := [1]
           kernelSign := [0]
           kernelShape := [1, 1]
           biasMagnitude := [2]
           biasSign := [1]
           biasShape := [1]
           scale := 2 }] 3
      = generate_move_code
        [{ layerName := "a"
           kernelMagnitude := [1]
           kernelSign := [0]
           kernelShape := [1, 1]
           biasMagnitude := [2]
           biasSign := [1]
           biasShape := [7, 7]
           scale := 9 }] 3 :=
  ⟨List.Forall₂.cons ⟨rfl, rfl, rfl, rfl, rfl, rfl⟩ List.Forall₂.nil,
   c10_generator_ignores_stored_scale_and_bias_shape
     [{ layerName := "a"
        kernelMagnitude := [1]
        kernelSign := [0]
        kernelShape := [1, 1]
        biasMagnitude := [2]
        biasSign := [1]
        biasShape := [1]
        scale := 2 }]
     [{ layerName := "a"
        kernelMagnitude := [1]
        kernelSign := [0]
        kernelShape := [1, 1]
        biasMagnitude := [2]
        biasSign := [1]
        biasShape := [7, 7]
        scale := 9 }] 3
     (List.Forall₂.cons ⟨rfl, rfl, rfl, rfl, rfl, rfl⟩ List.Forall₂.nil)⟩
